import Mathlib

/-!
Verification of the resume-parser skills pipeline.

Shallow embedding of `src/backend/src/agent/tools.py` (skill matcher
fallback path, structured-response handling) and of the
`/evaluate-resume` coordinator in `src/backend/src/agent/app.py`.
Model-provider responses, `json.loads`, and the AI skill extraction are
external collaborators and appear as explicit parameters; everything the
repository itself computes is embedded as executable Lean definitions.
-/

namespace ResumeParser

/-! ## Python string primitives

These mirror the CPython semantics of the exact string operations the
source uses: `str.strip`, `str.lower`, `str.split()` (whitespace,
dropping empty tokens), the substring test `in`, `str.find`, and slicing.
Only the ASCII whitespace and letter ranges are modelled; the repository
applies them to skill names and model output where this is the relevant
range.
-/

/-- ASCII whitespace recognised by Python `str.strip` / `str.split`. -/
def pyIsSpace (c : Char) : Bool :=
  c == ' ' || c == '\t' || c == '\n' || c == '\r' || c == '\x0b' || c == '\x0c'

/-- Lower-case a single character (ASCII range of Python `str.lower`). -/
def lowerChar (c : Char) : Char :=
  if 'A' ≤ c && c ≤ 'Z' then Char.ofNat (c.toNat + 32) else c

/-- Python `s.lower()`. -/
def pyLower (s : String) : String :=
  String.mk (s.toList.map lowerChar)

/-- Python `s.strip()`: drop leading and trailing whitespace. -/
def pyStrip (s : String) : String :=
  String.mk (((s.toList.dropWhile pyIsSpace).reverse.dropWhile pyIsSpace).reverse)

/-- Python `needle in hay` for strings: contiguous substring test. -/
def isSubOf (needle hay : List Char) : Bool :=
  match hay with
  | [] => needle.isEmpty
  | _ :: t => needle.isPrefixOf hay || isSubOf needle t

/-- Accumulating worker for `pyWords`. -/
def wordsAux : List Char → List Char → List String
  | [], acc => if acc.isEmpty then [] else [String.mk acc.reverse]
  | c :: cs, acc =>
    if pyIsSpace c then
      if acc.isEmpty then wordsAux cs [] else String.mk acc.reverse :: wordsAux cs []
    else wordsAux cs (c :: acc)

/-- Python `s.split()`: split on whitespace runs, no empty tokens. -/
def pyWords (s : String) : List String :=
  wordsAux s.toList []

/-! ## Skill Matcher fallback path (`tools.py`, `analyze_skills_matching`) -/

/-- The three-tier fuzzy skill equivalence `skills_match` of
`tools.py` lines 309-324: case-insensitive exact equality, substring
containment in either direction, or a shared token of length > 2.
The Python early returns of `True`/`False` are the boolean disjunction.
Python collects the significant words into sets; the list form used here
has the same emptiness and shared-element behaviour. -/
def skillsMatch (skill1 skill2 : String) : Bool :=
  let s1 := pyStrip (pyLower skill1)
  let s2 := pyStrip (pyLower skill2)
  let words1 := (pyWords s1).filter (fun w => w.length > 2)
  let words2 := (pyWords s2).filter (fun w => w.length > 2)
  (s1 == s2) ||
  (isSubOf s1.toList s2.toList || isSubOf s2.toList s1.toList) ||
  (!words1.isEmpty && (!words2.isEmpty && words1.any (fun w => words2.contains w)))

/-- `any(skills_match(resume_skill, job_skill) ...)` over the job list:
the inner loop of the matcher, whose `break` makes it a pure
existence test. -/
def jobAnyMatch (jobs : List String) (r : String) : Bool :=
  jobs.any (fun j => skillsMatch r j)

/-- One outer-loop step of the `matching_skills` accumulation
(`tools.py` lines 326-332): append the resume skill when it matches some
job skill and is not already present. -/
def addMatching (jobs : List String) (acc : List String) (r : String) : List String :=
  if jobAnyMatch jobs r then (if acc.contains r then acc else acc ++ [r]) else acc

/-- `matching_skills` of the fallback path: fold the outer loop over the
resume skills starting from the empty list. -/
def matchingSkills (resume jobs : List String) : List String :=
  resume.foldl (addMatching jobs) []

/-- `missing_skills` of the fallback path (`tools.py` lines 334-337):
job skills no resume skill matches. -/
def missingSkills (resume jobs : List String) : List String :=
  jobs.filter (fun j => !(resume.any (fun r => skillsMatch r j)))

/-- Round a rational to the nearest integer, ties to even — the
rounding IEEE-754 binary64 arithmetic applies to every operation
result. -/
def roundNearestEven (q : ℚ) : ℤ :=
  if q - ⌊q⌋ < 1/2 then ⌊q⌋
  else if 1/2 < q - ⌊q⌋ then ⌊q⌋ + 1
  else if ⌊q⌋ % 2 = 0 then ⌊q⌋ else ⌊q⌋ + 1

/-- Round a positive rational to the nearest IEEE-754 binary64 value:
scale into the 53-bit significand range `[2^52, 2^53)` by the power of
two determined by `Int.log 2`, round to nearest with ties to even, and
scale back. The exponent is unbounded here; for every value this
program feeds in — ratios and small multiples of list lengths — the
binary64 exponent range never binds and no subnormal arises, so this
agrees exactly with CPython float arithmetic on those inputs.
Non-positive inputs (only an exact 0 arises) map to 0. -/
def fl64 (x : ℚ) : ℚ :=
  if x ≤ 0 then 0
  else (roundNearestEven (x * 2 ^ (52 - Int.log 2 x)) : ℚ) * 2 ^ (Int.log 2 x - 52)

/-- `calculate_match_percentage` (`tools.py` lines 240-244):
`int((len(matching)/len(jobs))*100)` — a binary64 division, a binary64
multiplication by 100, then `int()` truncation toward zero, which on
this non-negative value is the floor. -/
def calculate_match_percentage (matching jobs : List String) : Nat :=
  if jobs.isEmpty then 0
  else (⌊fl64 (fl64 ((matching.length : ℚ) / (jobs.length : ℚ)) * 100)⌋).toNat

/-! ## Lemmas about the fallback matcher -/

lemma stringBeqComm (a b : String) : (a == b) = (b == a) := by
  by_cases h : a = b
  · simp [h]
  · simp [beq_eq_false_iff_ne.mpr h, beq_eq_false_iff_ne.mpr (Ne.symm h)]

lemma anyContains_comm (w1 w2 : List String) :
    (w1.any fun w => w2.contains w) = (w2.any fun w => w1.contains w) := by
  apply Bool.eq_iff_iff.mpr
  simp only [List.any_eq_true, List.elem_iff]
  exact ⟨fun ⟨x, h1, h2⟩ => ⟨x, h2, h1⟩, fun ⟨x, h1, h2⟩ => ⟨x, h2, h1⟩⟩

lemma addMatching_sublist (jobs acc : List String) (r : String) :
    (addMatching jobs acc r).Sublist (acc ++ [r]) := by
  unfold addMatching
  split
  · split
    · exact List.sublist_append_left acc [r]
    · exact List.Sublist.refl _
  · exact List.sublist_append_left acc [r]

lemma foldl_addMatching_sublist (jobs : List String) :
    ∀ (l acc : List String), (List.foldl (addMatching jobs) acc l).Sublist (acc ++ l)
  | [], acc => by simp
  | r :: rs, acc => by
    have ih := foldl_addMatching_sublist jobs rs (addMatching jobs acc r)
    have h1 : (addMatching jobs acc r ++ rs).Sublist ((acc ++ [r]) ++ rs) :=
      (addMatching_sublist jobs acc r).append_right rs
    have h2 : (acc ++ [r]) ++ rs = acc ++ (r :: rs) := by simp
    rw [h2] at h1
    exact (ih.trans h1)

lemma mem_addMatching (jobs acc : List String) (r x : String) :
    x ∈ addMatching jobs acc r ↔ x ∈ acc ∨ (x = r ∧ jobAnyMatch jobs r = true) := by
  unfold addMatching
  by_cases hm : jobAnyMatch jobs r
  · simp only [hm, if_true]
    by_cases hc : acc.contains r
    · have hmem : r ∈ acc := List.elem_iff.mp hc
      simp only [hc, if_true]
      constructor
      · exact fun h => Or.inl h
      · rintro (h | ⟨rfl, _⟩)
        · exact h
        · exact hmem
    · have hr : r ∉ acc := fun hmem => hc (List.elem_iff.mpr hmem)
      simp [hc, hr]
  · simp [hm]

lemma mem_foldl_addMatching (jobs : List String) :
    ∀ (l acc : List String) (x : String),
      x ∈ List.foldl (addMatching jobs) acc l ↔
        x ∈ acc ∨ (x ∈ l ∧ jobAnyMatch jobs x = true)
  | [], acc, x => by simp
  | r :: rs, acc, x => by
    rw [List.foldl_cons, mem_foldl_addMatching jobs rs _ x, mem_addMatching]
    constructor
    · rintro ((h | ⟨rfl, hm⟩) | ⟨hrs, hm⟩)
      · exact Or.inl h
      · exact Or.inr ⟨List.mem_cons_self _ _, hm⟩
      · exact Or.inr ⟨List.mem_cons_of_mem _ hrs, hm⟩
    · rintro (h | ⟨hx, hm⟩)
      · exact Or.inl (Or.inl h)
      · rcases List.mem_cons.mp hx with rfl | hrs
        · exact Or.inl (Or.inr ⟨rfl, hm⟩)
        · exact Or.inr ⟨hrs, hm⟩

lemma nodup_addMatching (jobs acc : List String) (r : String) (h : acc.Nodup) :
    (addMatching jobs acc r).Nodup := by
  unfold addMatching
  split
  · split
    · exact h
    · next hc =>
      have hr : r ∉ acc := fun hmem => hc (List.elem_iff.mpr hmem)
      simp [List.nodup_append, h, hr]
  · exact h

lemma nodup_foldl_addMatching (jobs : List String) :
    ∀ (l acc : List String), acc.Nodup → (List.foldl (addMatching jobs) acc l).Nodup
  | [], _, h => h
  | r :: rs, acc, h => by
    rw [List.foldl_cons]
    exact nodup_foldl_addMatching jobs rs _ (nodup_addMatching jobs acc r h)

/-! ## Claims C7, C8, C9, C10 -/

/-- Claim C7: the fallback fuzzy-equivalence test `skills_match` is
symmetric across all three tiers: for every pair of skill strings,
`skills_match a b = skills_match b a`. -/
theorem claim_C7_skillsMatch_symm (a b : String) : skillsMatch a b = skillsMatch b a := by
  simp only [skillsMatch]
  rw [stringBeqComm (pyStrip (pyLower a)) (pyStrip (pyLower b)),
    Bool.or_comm (isSubOf (pyStrip (pyLower a)).toList (pyStrip (pyLower b)).toList)
      (isSubOf (pyStrip (pyLower b)).toList (pyStrip (pyLower a)).toList),
    anyContains_comm, Bool.and_left_comm]

/-- Claim C8: for every pair of input skill lists, the `matching_skills`
list produced by the Skill Matcher's fallback path has no duplicate
entries under case-sensitive string identity. -/
theorem claim_C8_matching_nodup (resume jobs : List String) :
    (matchingSkills resume jobs).Nodup :=
  nodup_foldl_addMatching jobs resume [] List.nodup_nil

/-- Claim C9: in the fallback path, a job skill `j` is in
`missing_skills` iff no resume skill passes the three-tier equivalence
test against it; and every resume skill that does match some job skill
is recorded in `matching_skills` under its resume phrasing. -/
theorem claim_C9_missing_iff_unmatched (resume jobs : List String) (j : String)
    (hj : j ∈ jobs) :
    (j ∈ missingSkills resume jobs ↔ ∀ r ∈ resume, skillsMatch r j = false)
    ∧ (∀ r ∈ resume, skillsMatch r j = true → r ∈ matchingSkills resume jobs) := by
  constructor
  · rw [missingSkills, List.mem_filter]
    simp [hj, List.any_eq_false]
  · intro r hr hmatch
    rw [matchingSkills, mem_foldl_addMatching]
    exact Or.inr ⟨hr, List.any_eq_true.mpr ⟨j, hj, hmatch⟩⟩

/-- Witness for C9 at resume skills `["Python"]` and job skills
`["python", "AWS"]`, with `j = "AWS"`. -/
theorem claim_C9_witness :
    ("AWS" ∈ (["python", "AWS"] : List String)) ∧
    (("AWS" ∈ missingSkills ["Python"] ["python", "AWS"] ↔
        ∀ r ∈ (["Python"] : List String), skillsMatch r "AWS" = false)
      ∧ (∀ r ∈ (["Python"] : List String), skillsMatch r "AWS" = true →
          r ∈ matchingSkills ["Python"] ["python", "AWS"])) :=
  ⟨by decide, claim_C9_missing_iff_unmatched ["Python"] ["python", "AWS"] "AWS" (by decide)⟩

/-- Claim C10: in the fallback path, `matching_skills` is a subsequence
of `resume_skills` and `missing_skills` is a subsequence of
`job_skills` (elements verbatim from the source lists, in order). -/
theorem claim_C10_sublists (resume jobs : List String) :
    (matchingSkills resume jobs).Sublist resume
    ∧ (missingSkills resume jobs).Sublist jobs :=
  ⟨by simpa using foldl_addMatching_sublist jobs resume [], List.filter_sublist _⟩

/-! ## Rounding analysis for the binary64 match percentage -/

lemma roundNearestEven_err (q : ℚ) : |(roundNearestEven q : ℚ) - q| ≤ 1/2 := by
  have h1 : ((⌊q⌋ : ℤ) : ℚ) ≤ q := Int.floor_le q
  have h2 : q < ⌊q⌋ + 1 := Int.lt_floor_add_one q
  unfold roundNearestEven
  split_ifs with ha hb hc
  all_goals rw [abs_le]
  all_goals constructor
  all_goals push_cast
  all_goals linarith

lemma roundNearestEven_nonneg (q : ℚ) (h : 0 ≤ q) : 0 ≤ roundNearestEven q := by
  have h0 : 0 ≤ ⌊q⌋ := Int.floor_nonneg.mpr h
  unfold roundNearestEven
  split_ifs <;> omega

lemma roundNearestEven_eq_floor (q : ℚ) (f : ℤ) (hf : ⌊q⌋ = f) (hr : q - f < 1/2) :
    roundNearestEven q = f := by
  rw [roundNearestEven, hf, if_pos hr]

lemma fl64_nonneg (x : ℚ) : 0 ≤ fl64 x := by
  rw [fl64]
  split_ifs with h
  · exact le_refl 0
  · push_neg at h
    have hy : 0 ≤ x * 2 ^ (52 - Int.log 2 x) := by positivity
    exact mul_nonneg (by exact_mod_cast roundNearestEven_nonneg _ hy)
      (le_of_lt (zpow_pos (by norm_num) _))

lemma intLog2_eq (x : ℚ) (k : ℤ) (hx : 0 < x)
    (h1 : (2:ℚ) ^ k ≤ x) (h2 : x < (2:ℚ) ^ (k + 1)) : Int.log 2 x = k := by
  have ha : k ≤ Int.log 2 x := (Int.zpow_le_iff_le_log (by norm_num) hx).mp h1
  have hb : Int.log 2 x < k + 1 := (Int.lt_zpow_iff_log_lt (by norm_num) hx).mp h2
  omega

lemma fl64_eval (x y : ℚ) (k m : ℤ) (hx : 0 < x)
    (h1 : (2:ℚ) ^ k ≤ x) (h2 : x < (2:ℚ) ^ (k + 1))
    (hm : roundNearestEven (x * 2 ^ (52 - k)) = m)
    (hy : ((m : ℤ) : ℚ) * 2 ^ (k - 52) = y) :
    fl64 x = y := by
  rw [fl64, if_neg (not_le.mpr hx), intLog2_eq x k hx h1 h2, hm, hy]

/-- One binary64 rounding loses at most half an ulp: scaled through
`2^53`, the absolute error is at most the value itself. -/
lemma fl64_err (x : ℚ) (hx : 0 < x) : |fl64 x - x| * 2 ^ 53 ≤ x := by
  rw [fl64, if_neg (not_le.mpr hx)]
  have h2ne : (2:ℚ) ≠ 0 := by norm_num
  have hk1 : (2:ℚ) ^ Int.log 2 x ≤ x := Int.zpow_log_le_self (by norm_num) hx
  set k := Int.log 2 x with hk
  set y := x * 2 ^ (52 - k) with hy
  set c := (2:ℚ) ^ (k - 52) with hc
  have hcpos : 0 < c := zpow_pos (by norm_num) _
  have hx_eq : x = y * c := by
    rw [hy, hc, mul_assoc, ← zpow_add₀ h2ne,
      show (52 - k) + (k - 52) = (0:ℤ) by ring, zpow_zero, mul_one]
  have habs : |(roundNearestEven y : ℚ) * c - x| = |(roundNearestEven y : ℚ) - y| * c := by
    rw [hx_eq, ← sub_mul, abs_mul, abs_of_pos hcpos]
  calc |(roundNearestEven y : ℚ) * c - x| * 2 ^ 53
      = |(roundNearestEven y : ℚ) - y| * (c * 2 ^ 53) := by rw [habs, mul_assoc]
    _ ≤ (1/2) * (c * 2 ^ 53) := by
        exact mul_le_mul_of_nonneg_right (roundNearestEven_err y)
          (mul_nonneg hcpos.le (by positivity))
    _ = (2:ℚ) ^ k := by
        rw [hc, show ((2:ℚ) ^ (53:ℕ)) = (2:ℚ) ^ ((53:ℕ):ℤ) from (zpow_natCast 2 53).symm,
          ← zpow_add₀ h2ne, show (k - 52) + ((53:ℕ):ℤ) = k + 1 by push_cast; ring,
          zpow_add_one₀ h2ne]
        ring
    _ ≤ x := hk1

/-- The two roundings of `int((a/b)*100)` together move the value by
less than 1 whenever `a ≤ 2^40` (far beyond any real skill list). -/
lemma fl64_pipeline_err (a b : ℕ) (ha1 : 1 ≤ a) (ha : a ≤ 2 ^ 40) (hb : 1 ≤ b) :
    |fl64 (fl64 ((a : ℚ) / b) * 100) - 100 * ((a : ℚ) / b)| < 1 := by
  have hb0 : (0:ℚ) < b := by exact_mod_cast hb
  have hx : 0 < (a : ℚ) / b := div_pos (by exact_mod_cast ha1) hb0
  set x := (a : ℚ) / b with hxd
  have hxle : x ≤ 2 ^ 40 := by
    have hda : x ≤ (a : ℚ) := div_le_self (le_of_lt (by exact_mod_cast ha1)) (by exact_mod_cast hb)
    have hca : (a : ℚ) ≤ 2 ^ 40 := by exact_mod_cast ha
    linarith
  have h1 := fl64_err x hx
  set q := fl64 x with hqd
  have habs1 : |q - x| ≤ |q - x| * 2 ^ 53 :=
    le_mul_of_one_le_right (abs_nonneg _) (by norm_num)
  have hqx : |q - x| ≤ x := le_trans habs1 h1
  have hq2 : q ≤ 2 * x := by
    have := le_abs_self (q - x)
    linarith
  have hq0 : 0 < q := by
    have hlt : |q - x| < x := by nlinarith [abs_nonneg (q - x)]
    have := neg_abs_le (q - x)
    linarith
  have h2 := fl64_err (q * 100) (by positivity)
  set p := fl64 (q * 100) with hpd
  have tri : |p - 100 * x| ≤ |p - q * 100| + |q * 100 - 100 * x| := abs_sub_le _ _ _
  have habs3 : |q * 100 - 100 * x| = 100 * |q - x| := by
    rw [show q * 100 - 100 * x = 100 * (q - x) by ring, abs_mul,
      abs_of_pos (by norm_num : (0:ℚ) < 100)]
  have expand : |p - 100 * x| * 2 ^ 53 ≤ (|p - q * 100| + 100 * |q - x|) * 2 ^ 53 := by
    apply mul_le_mul_of_nonneg_right _ (by norm_num)
    calc |p - 100 * x| ≤ |p - q * 100| + |q * 100 - 100 * x| := tri
      _ = |p - q * 100| + 100 * |q - x| := by rw [habs3]
  have distrib : (|p - q * 100| + 100 * |q - x|) * 2 ^ 53
      = |p - q * 100| * 2 ^ 53 + 100 * (|q - x| * 2 ^ 53) := by ring
  rw [distrib] at expand
  have key : |p - 100 * x| * 2 ^ 53 ≤ 300 * x := by linarith
  by_contra hcon
  push_neg at hcon
  have hbig : (2:ℚ) ^ 53 ≤ 300 * x := by
    calc (2:ℚ) ^ 53 = 1 * 2 ^ 53 := (one_mul _).symm
      _ ≤ |p - 100 * x| * 2 ^ 53 := mul_le_mul_of_nonneg_right hcon (by norm_num)
      _ ≤ 300 * x := key
  have hlt : (300:ℚ) * 2 ^ 40 < 2 ^ 53 := by norm_num
  linarith

/-! ## Concrete binary64 evaluations of the match percentage -/

/-- `int((2/3)*100)` in binary64 is 66: `2/3` rounds to
`6004799503160661/2^53`, times 100 rounds to `4691249611844266/2^46`,
just under `200/3`, and truncation gives 66. -/
lemma percentage_eval_two_of_three :
    calculate_match_percentage ["a", "b"] ["x", "y", "z"] = 66 := by
  have hlen : ((["a", "b"] : List String).length : ℚ) /
      ((["x", "y", "z"] : List String).length : ℚ) = 2/3 := by norm_num
  have e1 : fl64 ((2:ℚ)/3) = 6004799503160661/9007199254740992 := by
    apply fl64_eval _ _ (-1) 6004799503160661 (by norm_num)
    · rw [show ((-1:ℤ)) = -((1:ℕ):ℤ) by norm_num, zpow_neg, zpow_natCast]; norm_num
    · rw [show ((-1:ℤ) + 1) = ((0:ℕ):ℤ) by norm_num, zpow_natCast]; norm_num
    · apply roundNearestEven_eq_floor
      · rw [show (52 - (-1:ℤ)) = ((53:ℕ):ℤ) by norm_num, zpow_natCast]; norm_num
      · rw [show (52 - (-1:ℤ)) = ((53:ℕ):ℤ) by norm_num, zpow_natCast]; push_cast; norm_num
    · rw [show ((-1:ℤ) - 52) = -((53:ℕ):ℤ) by norm_num, zpow_neg, zpow_natCast]
      push_cast; norm_num
  have e2 : fl64 ((6004799503160661:ℚ)/9007199254740992 * 100)
      = 4691249611844266/70368744177664 := by
    apply fl64_eval _ _ 6 4691249611844266 (by norm_num)
    · rw [show ((6:ℤ)) = ((6:ℕ):ℤ) by norm_num, zpow_natCast]; norm_num
    · rw [show ((6:ℤ) + 1) = ((7:ℕ):ℤ) by norm_num, zpow_natCast]; norm_num
    · apply roundNearestEven_eq_floor
      · rw [show (52 - (6:ℤ)) = ((46:ℕ):ℤ) by norm_num, zpow_natCast]; norm_num
      · rw [show (52 - (6:ℤ)) = ((46:ℕ):ℤ) by norm_num, zpow_natCast]; push_cast; norm_num
    · rw [show ((6:ℤ) - 52) = -((46:ℕ):ℤ) by norm_num, zpow_neg, zpow_natCast]
      push_cast; norm_num
  rw [calculate_match_percentage, if_neg (by decide), hlen, e1, e2]
  norm_num
  rfl

/-- `int((29/50)*100)` in binary64 is 57, not `⌊2900/50⌋ = 58`: `29/50`
rounds down to `5224175567749775/2^53`, times 100 rounds down again to
`8162774324609023/2^47 < 58`, and truncation gives 57. -/
lemma percentage_eval_29_of_50 :
    calculate_match_percentage (List.replicate 29 "s") (List.replicate 50 "s") = 57 := by
  have hlen : (((List.replicate 29 "s") : List String).length : ℚ) /
      (((List.replicate 50 "s") : List String).length : ℚ) = 29/50 := by
    norm_num
  have e1 : fl64 ((29:ℚ)/50) = 5224175567749775/9007199254740992 := by
    apply fl64_eval _ _ (-1) 5224175567749775 (by norm_num)
    · rw [show ((-1:ℤ)) = -((1:ℕ):ℤ) by norm_num, zpow_neg, zpow_natCast]; norm_num
    · rw [show ((-1:ℤ) + 1) = ((0:ℕ):ℤ) by norm_num, zpow_natCast]; norm_num
    · apply roundNearestEven_eq_floor
      · rw [show (52 - (-1:ℤ)) = ((53:ℕ):ℤ) by norm_num, zpow_natCast]; norm_num
      · rw [show (52 - (-1:ℤ)) = ((53:ℕ):ℤ) by norm_num, zpow_natCast]; push_cast; norm_num
    · rw [show ((-1:ℤ) - 52) = -((53:ℕ):ℤ) by norm_num, zpow_neg, zpow_natCast]
      push_cast; norm_num
  have e2 : fl64 ((5224175567749775:ℚ)/9007199254740992 * 100)
      = 8162774324609023/140737488355328 := by
    apply fl64_eval _ _ 5 8162774324609023 (by norm_num)
    · rw [show ((5:ℤ)) = ((5:ℕ):ℤ) by norm_num, zpow_natCast]; norm_num
    · rw [show ((5:ℤ) + 1) = ((6:ℕ):ℤ) by norm_num, zpow_natCast]; norm_num
    · apply roundNearestEven_eq_floor
      · rw [show (52 - (5:ℤ)) = ((47:ℕ):ℤ) by norm_num, zpow_natCast]; norm_num
      · rw [show (52 - (5:ℤ)) = ((47:ℕ):ℤ) by norm_num, zpow_natCast]; push_cast; norm_num
    · rw [show ((5:ℤ) - 52) = -((47:ℕ):ℤ) by norm_num, zpow_neg, zpow_natCast]
      push_cast; norm_num
  rw [calculate_match_percentage, if_neg (by decide), hlen, e1, e2]
  norm_num
  rfl

/-- `int((2/1)*100)` in binary64 is exactly 200: both roundings are
exact on these values. -/
lemma percentage_eval_two_of_one :
    calculate_match_percentage ["java", "javascript"] ["java"] = 200 := by
  have hlen : ((["java", "javascript"] : List String).length : ℚ) /
      ((["java"] : List String).length : ℚ) = 2 := by norm_num
  have e1 : fl64 (2:ℚ) = 2 := by
    apply fl64_eval _ _ 1 4503599627370496 (by norm_num)
    · rw [show ((1:ℤ)) = ((1:ℕ):ℤ) by norm_num, zpow_natCast]; norm_num
    · rw [show ((1:ℤ) + 1) = ((2:ℕ):ℤ) by norm_num, zpow_natCast]; norm_num
    · apply roundNearestEven_eq_floor
      · rw [show (52 - (1:ℤ)) = ((51:ℕ):ℤ) by norm_num, zpow_natCast]; norm_num
      · rw [show (52 - (1:ℤ)) = ((51:ℕ):ℤ) by norm_num, zpow_natCast]; push_cast; norm_num
    · rw [show ((1:ℤ) - 52) = -((51:ℕ):ℤ) by norm_num, zpow_neg, zpow_natCast]
      push_cast; norm_num
  have e2 : fl64 ((2:ℚ) * 100) = 200 := by
    apply fl64_eval _ _ 7 7036874417766400 (by norm_num)
    · rw [show ((7:ℤ)) = ((7:ℕ):ℤ) by norm_num, zpow_natCast]; norm_num
    · rw [show ((7:ℤ) + 1) = ((8:ℕ):ℤ) by norm_num, zpow_natCast]; norm_num
    · apply roundNearestEven_eq_floor
      · rw [show (52 - (7:ℤ)) = ((45:ℕ):ℤ) by norm_num, zpow_natCast]; norm_num
      · rw [show (52 - (7:ℤ)) = ((45:ℕ):ℤ) by norm_num, zpow_natCast]; push_cast; norm_num
    · rw [show ((7:ℤ) - 52) = -((45:ℕ):ℤ) by norm_num, zpow_neg, zpow_natCast]
      push_cast; norm_num
  rw [calculate_match_percentage, if_neg (by decide), hlen, e1, e2]
  norm_num
  rfl

/-! ## Claims C1 and C2: the match percentage -/

/-- Claim C1 counterexample: with a 2-element `matching_skills` and a
3-element `job_skills`, the binary64 computation `int((2/3)*100)`
yields 66, while `round(100 * 2 / 3) = 67`, so the percentage is not
the rounded ratio. -/
theorem claim_C1_counterexample :
    ¬ ((calculate_match_percentage ["a", "b"] ["x", "y", "z"] : ℤ) =
        round ((100 * ((["a", "b"] : List String).length : ℚ)) /
          ((["x", "y", "z"] : List String).length : ℚ))) := by
  rw [percentage_eval_two_of_three]
  norm_num [round_eq]

/-- Claim C1 (amended): the match percentage is 0 when `job_skills` is
empty; otherwise it is the `int()` truncation of the binary64
evaluation of `(|matching_skills|/|job_skills|)*100`, which stays
within 1 of the exact `⌊100 * |matching_skills| / |job_skills|⌋` for
every realistic size (`|matching_skills| ≤ 2^40`) but does not follow
an exact rounding rule: at 29 matching of 50 job skills the code
yields 57 where the exact floor is 58. -/
theorem claim_C1_percentage_truncated_binary64 (matching jobs : List String) :
    calculate_match_percentage matching [] = 0
    ∧ (jobs ≠ [] → matching.length ≤ 2 ^ 40 →
        ⌊(100 * (matching.length : ℚ)) / (jobs.length : ℚ)⌋ - 1
            ≤ (calculate_match_percentage matching jobs : ℤ)
          ∧ (calculate_match_percentage matching jobs : ℤ)
            ≤ ⌊(100 * (matching.length : ℚ)) / (jobs.length : ℚ)⌋ + 1)
    ∧ calculate_match_percentage (List.replicate 29 "s") (List.replicate 50 "s") = 57
    ∧ ⌊(100 * (((List.replicate 29 "s") : List String).length : ℚ)) /
        (((List.replicate 50 "s") : List String).length : ℚ)⌋ = 58 := by
  refine ⟨rfl, fun hne hbound => ?_, percentage_eval_29_of_50, by norm_num⟩
  have hje : ¬(jobs.isEmpty = true) := by simp [List.isEmpty_iff, hne]
  rcases Nat.eq_zero_or_pos matching.length with h0 | hpos
  · have hq0 : ((matching.length : ℚ)) = 0 := by exact_mod_cast h0
    have hzero : calculate_match_percentage matching jobs = 0 := by
      rw [calculate_match_percentage, if_neg hje, hq0, zero_div,
        show fl64 (0:ℚ) = 0 from by rw [fl64, if_pos le_rfl], zero_mul,
        show fl64 (0:ℚ) = 0 from by rw [fl64, if_pos le_rfl]]
      norm_num
    refine ⟨?_, ?_⟩ <;> rw [hzero, hq0] <;> norm_num
  · have hb1 : 0 < jobs.length := List.length_pos.mpr hne
    have herr := fl64_pipeline_err matching.length jobs.length hpos hbound hb1
    obtain ⟨hl, hr⟩ := abs_lt.mp herr
    have hperc : ((calculate_match_percentage matching jobs : ℕ) : ℤ)
        = ⌊fl64 (fl64 ((matching.length : ℚ) / (jobs.length : ℚ)) * 100)⌋ := by
      rw [calculate_match_percentage, if_neg hje]
      exact Int.toNat_of_nonneg (Int.floor_nonneg.mpr (fl64_nonneg _))
    have hT : (100 * (matching.length : ℚ)) / (jobs.length : ℚ)
        = 100 * ((matching.length : ℚ) / (jobs.length : ℚ)) := by ring
    constructor
    · rw [hperc]
      calc ⌊(100 * (matching.length : ℚ)) / (jobs.length : ℚ)⌋ - 1
          = ⌊(100 * (matching.length : ℚ)) / (jobs.length : ℚ) - ((1:ℤ):ℚ)⌋ :=
            (Int.floor_sub_int _ _).symm
        _ ≤ ⌊fl64 (fl64 ((matching.length : ℚ) / (jobs.length : ℚ)) * 100)⌋ := by
            apply Int.floor_le_floor
            rw [hT]
            push_cast
            linarith
    · rw [hperc]
      calc ⌊fl64 (fl64 ((matching.length : ℚ) / (jobs.length : ℚ)) * 100)⌋
          ≤ ⌊(100 * (matching.length : ℚ)) / (jobs.length : ℚ) + ((1:ℤ):ℚ)⌋ := by
            apply Int.floor_le_floor
            rw [hT]
            push_cast
            linarith
        _ = ⌊(100 * (matching.length : ℚ)) / (jobs.length : ℚ)⌋ + 1 :=
            Int.floor_add_int _ _

/-- Witness for the amended C1 at matching skills `["a", "b"]` and job
skills `["x", "y", "z"]`: the computed 66 lies within 1 of the exact
floor. -/
theorem claim_C1_witness :
    ((["x", "y", "z"] : List String) ≠ [])
    ∧ (["a", "b"] : List String).length ≤ 2 ^ 40
    ∧ (⌊(100 * ((["a", "b"] : List String).length : ℚ)) /
          ((["x", "y", "z"] : List String).length : ℚ)⌋ - 1
        ≤ (calculate_match_percentage ["a", "b"] ["x", "y", "z"] : ℤ)
      ∧ (calculate_match_percentage ["a", "b"] ["x", "y", "z"] : ℤ)
        ≤ ⌊(100 * ((["a", "b"] : List String).length : ℚ)) /
            ((["x", "y", "z"] : List String).length : ℚ)⌋ + 1) :=
  ⟨by decide, by decide,
    (claim_C1_percentage_truncated_binary64 ["a", "b"] ["x", "y", "z"]).2.1
      (by decide) (by decide)⟩

/-- Claim C2 evaluated at a failing input: with extracted resume skills
`["java", "javascript"]` and job skills `["java"]`, both resume skills
match the single job skill, so the fallback path computes a match
percentage of 200 (exactly, the binary64 arithmetic being exact here),
violating the `0 ≤ match_percentage ≤ 100` invariant the spec states
(and the 0-100 bounds the repository's own response schemas demand of
percentages). -/
theorem claim_C2_percentage_exceeds_100 :
    matchingSkills ["java", "javascript"] ["java"] = ["java", "javascript"]
    ∧ calculate_match_percentage (matchingSkills ["java", "javascript"] ["java"]) ["java"] = 200
    ∧ ¬ (calculate_match_percentage (matchingSkills ["java", "javascript"] ["java"]) ["java"] ≤ 100) := by
  have hm : matchingSkills ["java", "javascript"] ["java"] = ["java", "javascript"] := by decide
  refine ⟨hm, ?_, ?_⟩
  · rw [hm, percentage_eval_two_of_one]
  · rw [hm, percentage_eval_two_of_one]
    norm_num

/-! ## JSON payloads and the structured-response handling

`json.loads` is a Python stdlib collaborator: it appears as a `decode`
parameter producing an optional `JVal` (decoded value, or `none` for a
`JSONDecodeError`). The AI skill extraction (`extract_skills_from_text`)
is a provider call and appears as its result list. -/

/-- A decoded JSON value. -/
inductive JVal where
  | str : String → JVal
  | num : Int → JVal
  | bool : Bool → JVal
  | null : JVal
  | arr : List JVal → JVal
  | obj : List (String × JVal) → JVal

/-- Field access on a decoded JSON object; `none` on non-objects and
absent keys. -/
def JVal.lookup : JVal → String → Option JVal
  | JVal.obj fields, k => fields.lookup k
  | _, _ => none

/-- Worker for `pyFind`: index of the first occurrence, else -1. -/
def findSubAux (needle : List Char) : List Char → Nat → Int
  | [], i => if needle.isEmpty then (i : Int) else -1
  | c :: t, i => if needle.isPrefixOf (c :: t) then (i : Int) else findSubAux needle t (i + 1)

/-- Python `hay.find(needle)`. -/
def pyFind (hay needle : String) : Int :=
  findSubAux needle.toList hay.toList 0

/-- Python `hay.find(needle, start)`: search from `start`, absolute
index or -1. -/
def pyFindFrom (hay needle : String) (start : Nat) : Int :=
  let r := findSubAux needle.toList (hay.toList.drop start) 0
  if r < 0 then -1 else r + (start : Int)

/-- Python `s[start:stop]` for a non-negative `start`: a negative `stop`
counts from the end, and both bounds clamp to the string. -/
def pySlice (s : String) (start : Nat) (stop : Int) : String :=
  let n := s.toList.length
  let stopN : Nat := if stop < 0 then (stop + n).toNat else min stop.toNat n
  String.mk ((s.toList.drop (min start n)).take (stopN - min start n))

/-- The markdown-fence extraction shared by `analyze_skills_matching`
(`tools.py` lines 290-298) and `analyze_experience_structure` (lines
404-412): content after a labeled `\x60\x60\x60json` (else bare
`\x60\x60\x60`) opening fence, up to the next fence; when no closing
fence exists, Python `find` yields -1 and the slice drops the final
character. -/
def stripCodeFence (t : String) : String :=
  if isSubOf "```json".toList t.toList then
    let start := (pyFind t "```json").toNat + 7
    pySlice t start (pyFindFrom t "```" start)
  else if isSubOf "```".toList t.toList then
    let start := (pyFind t "```").toNat + 3
    pySlice t start (pyFindFrom t "```" start)
  else t

/-- Python `s.count(c)` for a single-character needle. -/
def countChar (s : String) (c : Char) : Nat :=
  s.toList.count c

/-- The dict `analyze_skills_matching` builds on JSON-decode failure
(`tools.py` lines 342-350), from the two independently extracted skill
lists. -/
def fallbackSkillsPayload (resumeSkills jobSkills : List String) : JVal :=
  JVal.obj [
    ("resume_skills", JVal.arr (resumeSkills.map JVal.str)),
    ("job_skills", JVal.arr (jobSkills.map JVal.str)),
    ("matching_skills", JVal.arr ((matchingSkills resumeSkills jobSkills).map JVal.str)),
    ("missing_skills", JVal.arr ((missingSkills resumeSkills jobSkills).map JVal.str)),
    ("match_percentage",
      JVal.num (calculate_match_percentage (matchingSkills resumeSkills jobSkills) jobSkills)),
    ("summary", JVal.str ("Skills analysis completed via fallback method. Found " ++
      toString (matchingSkills resumeSkills jobSkills).length ++
      " matching skills out of " ++ toString jobSkills.length ++ " required skills.")),
    ("fallback_used", JVal.bool true)]

/-- `analyze_skills_matching` from the provider response onward:
strip, de-fence, decode; on decode failure return the deterministic
fallback payload. `decode` stands for `json.loads`; `extractResume` and
`extractJob` are the `extract_skills_from_text` provider results. -/
def analyze_skills_matching (decode : String → Option JVal)
    (extractResume extractJob : List String) (responseText : String) : JVal :=
  let t := stripCodeFence (pyStrip responseText)
  match decode t with
  | some v => v
  | none => fallbackSkillsPayload extractResume extractJob

/-- The dict `analyze_experience_structure` builds on JSON-decode
failure (`tools.py` lines 418-424). -/
def fallbackExperiencePayload (resumeText : String) : JVal :=
  JVal.obj [
    ("total_experiences",
      JVal.num (if isSubOf ['•'] resumeText.toList then (countChar resumeText '•') / 3 else 2)),
    ("structure_score", JVal.num 6),
    ("summary", JVal.str "Experience structure analysis (fallback mode)"),
    ("fallback_used", JVal.bool true)]

/-- `analyze_experience_structure` from the provider response onward
(`tools.py` lines 402-424): identical fence handling, different
fallback payload. -/
def analyze_experience_structure (decode : String → Option JVal)
    (resumeText responseText : String) : JVal :=
  let t := stripCodeFence (pyStrip responseText)
  match decode t with
  | some v => v
  | none => fallbackExperiencePayload resumeText

/-! ## The `/evaluate-resume` coordinator (`app.py`, `evaluate_resume_directly`) -/

/-- An HTTPException as raised by the endpoint. -/
structure HttpError where
  status : Nat
  detail : String

/-- The dict returned by `evaluate_resume_directly` on success
(`app.py` lines 406-412): exactly these five fields, with both stage
outputs as raw concatenated strings. -/
def coordinatorResponse (evaluationReport ratingResults : String) : List (String × JVal) :=
  [("success", JVal.bool true),
   ("evaluation_report", JVal.str evaluationReport),
   ("rating_and_generation", JVal.str ratingResults),
   ("workflow_type", JVal.str "sequential_evaluation_and_rating"),
   ("message", JVal.str "Resume evaluation and rating completed using sequential agents")]

/-- `evaluate_resume_directly` (`app.py` lines 276-417). Stage outputs
from the two agent runners arrive as chunk lists that the endpoint
concatenates. The second component counts model-provider invocations:
one inside `analyze_skills_matching`, two more in its decode-failure
fallback (`extract_skills_from_text` on each document), then the
evaluation-agent and rating-agent runs. The skills analysis is
interpolated into the two stage prompts only; the response is built
solely from the concatenated stage outputs. -/
def evaluate_resume_directly (decode : String → Option JVal)
    (extractResume extractJob : List String) (skillsResponseText : String)
    (evalChunks ratingChunks : List String)
    (resumeText jobDescription : String) :
    Except HttpError (List (String × JVal)) × Nat :=
  if (pyStrip resumeText).isEmpty then
    (Except.error ⟨400, "Resume text cannot be empty"⟩, 0)
  else if (pyStrip jobDescription).isEmpty then
    (Except.error ⟨400, "Job description cannot be empty"⟩, 0)
  else
    let skillsCalls :=
      1 + (if (decode (stripCodeFence (pyStrip skillsResponseText))).isNone then 2 else 0)
    let _skillsAnalysis :=
      analyze_skills_matching decode extractResume extractJob skillsResponseText
    (Except.ok (coordinatorResponse (String.join evalChunks) (String.join ratingChunks)),
     skillsCalls + 2)

/-! ## Claims C3, C4, C5, C6 -/

/-- Claim C4 counterexample: feeding the parser the undecodable text
`"This is not JSON"` yields the dynamic skills fallback payload — it
carries no `raw_text` field and no `recovered` flag (it is marked
`fallback_used` instead), so the fallback is not the
`\x7braw_text: original text\x7d` payload the claim describes. -/
theorem claim_C4_counterexample :
    (analyze_skills_matching (fun _ => none) ["python"] ["java"] "This is not JSON").lookup
      "raw_text" = none
    ∧ (analyze_skills_matching (fun _ => none) ["python"] ["java"] "This is not JSON").lookup
      "recovered" = none
    ∧ (analyze_skills_matching (fun _ => none) ["python"] ["java"] "This is not JSON").lookup
      "fallback_used" = some (JVal.bool true) :=
  ⟨rfl, rfl, rfl⟩

/-- Claim C4 (amended): after fence-stripping, a failed JSON decode
makes `analyze_skills_matching` return the deterministic
skills-extraction fallback payload and `analyze_experience_structure`
return its fixed default payload — typed fallbacks, never an
exception (both embeddings are total functions). -/
theorem claim_C4_fallback_shape (decode : String → Option JVal)
    (extractResume extractJob : List String) (resumeText responseText : String)
    (h : decode (stripCodeFence (pyStrip responseText)) = none) :
    analyze_skills_matching decode extractResume extractJob responseText
      = fallbackSkillsPayload extractResume extractJob
    ∧ analyze_experience_structure decode resumeText responseText
      = fallbackExperiencePayload resumeText := by
  simp only [analyze_skills_matching, analyze_experience_structure]
  rw [h]
  exact ⟨rfl, rfl⟩

/-- Witness for the amended C4 with an always-failing decoder on the
response `"oops"`. -/
theorem claim_C4_witness :
    ((fun _ : String => (none : Option JVal)) (stripCodeFence (pyStrip "oops")) = none)
    ∧ (analyze_skills_matching (fun _ => none) ["go"] ["rust"] "oops"
        = fallbackSkillsPayload ["go"] ["rust"]
      ∧ analyze_experience_structure (fun _ => none) "resume body" "oops"
        = fallbackExperiencePayload "resume body") :=
  ⟨rfl, claim_C4_fallback_shape (fun _ => none) ["go"] ["rust"] "resume body" "oops" rfl⟩

/-- Claim C6: when `resume_text` or `job_description` strips to the
empty string, the endpoint rejects with HTTP 400 and makes zero
provider calls. -/
theorem claim_C6_validation_before_provider (decode : String → Option JVal)
    (extractResume extractJob : List String) (skillsResponseText : String)
    (evalChunks ratingChunks : List String) (resumeText jobDescription : String)
    (h : pyStrip resumeText = "" ∨ pyStrip jobDescription = "") :
    (evaluate_resume_directly decode extractResume extractJob skillsResponseText
        evalChunks ratingChunks resumeText jobDescription).2 = 0
    ∧ ((evaluate_resume_directly decode extractResume extractJob skillsResponseText
          evalChunks ratingChunks resumeText jobDescription).1
        = Except.error ⟨400, "Resume text cannot be empty"⟩
      ∨ (evaluate_resume_directly decode extractResume extractJob skillsResponseText
          evalChunks ratingChunks resumeText jobDescription).1
        = Except.error ⟨400, "Job description cannot be empty"⟩) := by
  unfold evaluate_resume_directly
  rcases h with h | h
  · rw [if_pos (show (pyStrip resumeText).isEmpty = true by rw [h]; rfl)]
    exact ⟨rfl, Or.inl rfl⟩
  · by_cases hr : (pyStrip resumeText).isEmpty = true
    · rw [if_pos hr]
      exact ⟨rfl, Or.inl rfl⟩
    · rw [if_neg hr, if_pos (show (pyStrip jobDescription).isEmpty = true by rw [h]; rfl)]
      exact ⟨rfl, Or.inr rfl⟩

/-- Witness for C6: a whitespace-only job description is rejected with
HTTP 400 and zero provider invocations. -/
theorem claim_C6_witness :
    (pyStrip "resume" = "" ∨ pyStrip " \t " = "")
    ∧ ((evaluate_resume_directly (fun _ => none) [] [] "resp" [] [] "resume" " \t ").2 = 0
      ∧ ((evaluate_resume_directly (fun _ => none) [] [] "resp" [] [] "resume" " \t ").1
          = Except.error ⟨400, "Resume text cannot be empty"⟩
        ∨ (evaluate_resume_directly (fun _ => none) [] [] "resp" [] [] "resume" " \t ").1
          = Except.error ⟨400, "Job description cannot be empty"⟩)) :=
  ⟨Or.inr (by decide),
    claim_C6_validation_before_provider (fun _ => none) [] [] "resp" [] [] "resume" " \t "
      (Or.inr (by decide))⟩

/-- Claim C3 counterexample: a run whose skill-match fallback computes
`missing_skills = ["aws"]` while the evaluation stage output omits any
skill fields still produces a response with no `structured_evaluation`
field at all — nothing is backfilled, so
`structured_evaluation.missing_skills` cannot equal the
SkillMatchResult's `missing_skills`. -/
theorem claim_C3_counterexample :
    (evaluate_resume_directly (fun _ => none) ["python"] ["python", "aws"] "oops"
        ["evaluation report text"] ["rating text"] "candidate resume" "job posting").1
      = Except.ok (coordinatorResponse "evaluation report text" "rating text")
    ∧ (coordinatorResponse "evaluation report text" "rating text").lookup
        "structured_evaluation" = none
    ∧ missingSkills ["python"] ["python", "aws"] = ["aws"] :=
  ⟨rfl, rfl, by decide⟩

/-- Claim C3 (amended): the coordinator performs no backfill — for
every request passing input validation, the response is exactly the
five-field dict whose `evaluation_report` and `rating_and_generation`
are the verbatim concatenated stage outputs, and it contains no
`structured_evaluation` field; the skill-match result reaches the
stages only through their prompts. -/
theorem claim_C3_no_backfill (decode : String → Option JVal)
    (extractResume extractJob : List String) (skillsResponseText : String)
    (evalChunks ratingChunks : List String) (resumeText jobDescription : String)
    (hr : ¬ (pyStrip resumeText).isEmpty = true)
    (hj : ¬ (pyStrip jobDescription).isEmpty = true) :
    (evaluate_resume_directly decode extractResume extractJob skillsResponseText
        evalChunks ratingChunks resumeText jobDescription).1
      = Except.ok (coordinatorResponse (String.join evalChunks) (String.join ratingChunks))
    ∧ (coordinatorResponse (String.join evalChunks) (String.join ratingChunks)).lookup
        "structured_evaluation" = none := by
  unfold evaluate_resume_directly
  rw [if_neg hr, if_neg hj]
  exact ⟨rfl, rfl⟩

/-- Witness for the amended C3 on a concrete valid request. -/
theorem claim_C3_witness :
    (¬ (pyStrip "candidate resume").isEmpty = true)
    ∧ (¬ (pyStrip "job posting").isEmpty = true)
    ∧ ((evaluate_resume_directly (fun _ => none) ["python"] ["python", "aws"] "oops"
          ["report"] ["rating"] "candidate resume" "job posting").1
        = Except.ok (coordinatorResponse (String.join ["report"]) (String.join ["rating"]))
      ∧ (coordinatorResponse (String.join ["report"]) (String.join ["rating"])).lookup
          "structured_evaluation" = none) :=
  ⟨by decide, by decide,
    claim_C3_no_backfill (fun _ => none) ["python"] ["python", "aws"] "oops"
      ["report"] ["rating"] "candidate resume" "job posting" (by decide) (by decide)⟩

/-- Claim C5 counterexample: a rating-stage output quoting
`current_text` `"Led a team of 50"`, which is not a substring of the
resume `"Managed two interns for one summer"`, is returned verbatim in
the fixed five-field response with no validation-mismatch flag —
identical treatment to a verbatim quote, so no flagging occurs. -/
theorem claim_C5_counterexample :
    isSubOf "Led a team of 50".toList "Managed two interns for one summer".toList = false
    ∧ (evaluate_resume_directly (fun _ => none) ["python"] ["python"] "oops"
        ["evaluation report"] ["current_text: Led a team of 50"]
        "Managed two interns for one summer" "job posting").1
      = Except.ok (coordinatorResponse "evaluation report" "current_text: Led a team of 50")
    ∧ (coordinatorResponse "evaluation report" "current_text: Led a team of 50").lookup
        "validation_mismatches" = none :=
  ⟨by decide, rfl, rfl⟩

/-- Claim C5 (amended): the coordinator performs no substring
validation of paraphrasing suggestions — for every request passing
input validation, the rating stage's output is returned verbatim in
`rating_and_generation` regardless of its content's relation to
`resume_text`, and the response carries no mismatch flag. -/
theorem claim_C5_no_validation (decode : String → Option JVal)
    (extractResume extractJob : List String) (skillsResponseText : String)
    (evalChunks ratingChunks : List String) (resumeText jobDescription : String)
    (hr : ¬ (pyStrip resumeText).isEmpty = true)
    (hj : ¬ (pyStrip jobDescription).isEmpty = true) :
    (evaluate_resume_directly decode extractResume extractJob skillsResponseText
        evalChunks ratingChunks resumeText jobDescription).1
      = Except.ok (coordinatorResponse (String.join evalChunks) (String.join ratingChunks))
    ∧ (coordinatorResponse (String.join evalChunks) (String.join ratingChunks)).lookup
        "rating_and_generation" = some (JVal.str (String.join ratingChunks))
    ∧ (coordinatorResponse (String.join evalChunks) (String.join ratingChunks)).lookup
        "validation_mismatches" = none := by
  unfold evaluate_resume_directly
  rw [if_neg hr, if_neg hj]
  exact ⟨rfl, rfl, rfl⟩

/-- Witness for the amended C5 on a concrete valid request whose rating
output quotes text absent from the resume. -/
theorem claim_C5_witness :
    (¬ (pyStrip "Managed two interns for one summer").isEmpty = true)
    ∧ (¬ (pyStrip "job ad").isEmpty = true)
    ∧ ((evaluate_resume_directly (fun _ => none) ["sql"] ["sql"] "resp"
          ["eval text"] ["current_text: Led a team of 50"]
          "Managed two interns for one summer" "job ad").1
        = Except.ok (coordinatorResponse (String.join ["eval text"])
            (String.join ["current_text: Led a team of 50"]))
      ∧ (coordinatorResponse (String.join ["eval text"])
            (String.join ["current_text: Led a team of 50"])).lookup
          "rating_and_generation"
          = some (JVal.str (String.join ["current_text: Led a team of 50"]))
      ∧ (coordinatorResponse (String.join ["eval text"])
            (String.join ["current_text: Led a team of 50"])).lookup
          "validation_mismatches" = none) :=
  ⟨by decide, by decide,
    claim_C5_no_validation (fun _ => none) ["sql"] ["sql"] "resp"
      ["eval text"] ["current_text: Led a team of 50"]
      "Managed two interns for one summer" "job ad" (by decide) (by decide)⟩

end ResumeParser
